import Mathlib

/-!
Verification model of the billing-event reconciliation and referral credit
ledger of the account-management-center backend.

Monetary columns of type Numeric(10,2) are modelled as integer numbers of
cents (an Int), so that the exact two-decimal Decimal arithmetic of the
source becomes exact integer arithmetic: the Decimal value 1.00 is the
integer 100.  Timestamps are modelled as natural numbers.  Database tables
are modelled as Lean lists of row structures, SELECT with
scalar_one_or_none as List.find?, and UPDATE ... WHERE as List.map guarded
by the WHERE predicate.  An HTTPException raised by a handler is the
httpError constructor of HandlerResult; the state component returned next
to it is the persisted state after the handler, which for a raising path
is the unmodified input state (the session was never committed).
-/

namespace AccountCenter

/-! ### Kernel-computable models of the Python string methods

The Lean core String functions (splitOn, toUpper, trim, ...) are defined
by well-founded recursion and do not reduce inside the kernel, so the
Python string methods the handlers use are modelled here by structurally
recursive functions over the underlying character list.  Payloads are
ASCII, where Char.toUpper and Char.toLower agree with str.upper and
str.lower. -/

/-- Accumulator loop behind pySplit: walks the characters, cutting at
every separator, like str.split(sep) with a one-character separator
(empty pieces are kept). -/
def splitCharAux (sep : Char) : List Char → List Char → List String
  | [], acc => [String.mk acc.reverse]
  | c :: cs, acc =>
    if c == sep then String.mk acc.reverse :: splitCharAux sep cs []
    else splitCharAux sep cs (c :: acc)

/-- Python str.split(sep) with a one-character separator. -/
def pySplit (sep : Char) (s : String) : List String :=
  splitCharAux sep s.data []

/-- Python str.upper() on ASCII text. -/
def pyUpper (s : String) : String :=
  String.mk (s.data.map Char.toUpper)

/-- Python str.lower() on ASCII text. -/
def pyLower (s : String) : String :=
  String.mk (s.data.map Char.toLower)

/-- Python str.strip(): drop leading and trailing whitespace. -/
def pyStrip (s : String) : String :=
  String.mk (((s.data.dropWhile Char.isWhitespace).reverse.dropWhile
    Char.isWhitespace).reverse)

/-- Row of the user_level_en table (core/models.py, class UserLevelEn).
Only the columns the reconciliation logic reads or writes are kept. -/
structure UserLevelEn where
  user_id : String
  subscription_status : Option String
  stripe_customer_id : Option String
  apple_customer_id : Option String
deriving Repr, DecidableEq

/-- Row shape shared by the receipt_usage_quota_request_en and
receipt_usage_quota_receipt_en tables (core/models.py): both carry a
user_id key and a month_limit column. -/
structure ReceiptUsageQuotaRow where
  user_id : String
  month_limit : Int
deriving Repr, DecidableEq

/-- Row of the referral_codes table (core/models.py, class ReferralCode). -/
structure ReferralCode where
  user_id : String
  referral_code : String
  is_active : Bool
  expires_at : Option Nat
deriving Repr, DecidableEq

/-- Row of the referral_records table (core/models.py, class
ReferralRecord).  credit_amount is in cents. -/
structure ReferralRecord where
  id : Nat
  referrer_user_id : String
  referee_user_id : String
  referral_code : String
  credit_amount : Int
  status : String
  stripe_customer_id : Option String
  credited_at : Option Nat
deriving Repr, DecidableEq

/-- Row of the user_credits table (core/models.py, class UserCredit).
All three balances are in cents. -/
structure UserCredit where
  user_id : String
  total_credits : Int
  used_credits : Int
  available_credits : Int
deriving Repr, DecidableEq

/-- Row of the credit_transactions table (core/models.py, class
CreditTransaction).  amount and the two balances are in cents. -/
structure CreditTransaction where
  user_id : String
  transaction_type : String
  amount : Int
  balance_before : Int
  balance_after : Int
  description : String
  reference_id : String
deriving Repr, DecidableEq

/-- The persisted state: the six relations the reconciliation and ledger
code touches. -/
structure DBState where
  users : List UserLevelEn
  quota_request : List ReceiptUsageQuotaRow
  quota_receipt : List ReceiptUsageQuotaRow
  referral_codes : List ReferralCode
  referral_records : List ReferralRecord
  user_credits : List UserCredit
  credit_transactions : List CreditTransaction
deriving Repr, DecidableEq

/-- Outcome of a FastAPI handler: a normal JSON response of type α, or a
raised HTTPException carrying its detail string. -/
inductive HandlerResult (α : Type) where
  | ok (value : α)
  | httpError (detail : String)
deriving Repr, DecidableEq

/-! ## Stripe webhook handler (stripe_manager/webhook_handle_router.py) -/

/-- update_user_subscription (webhook_handle_router.py lines 31-69):
writes subscription_status and stripe_customer_id on the user row, then
sets month_limit in both quota tables to 100 when the level is "pro" and
to 5 otherwise, in one transaction. -/
def update_user_subscription (st : DBState) (user_id : String) (level : String)
    (stripe_customer_id : Option String) : DBState :=
  let users := st.users.map fun u =>
    if u.user_id == user_id then
      { u with subscription_status := some level,
               stripe_customer_id := stripe_customer_id }
    else u
  let request_limit : Int := if level == "pro" then 100 else 5
  { st with
    users := users
    quota_request := st.quota_request.map fun q =>
      if q.user_id == user_id then { q with month_limit := request_limit } else q
    quota_receipt := st.quota_receipt.map fun q =>
      if q.user_id == user_id then { q with month_limit := request_limit } else q }

/-- The fields of a parsed Stripe webhook payload that the handler reads:
payload.type, payload.data.object.metadata.user_id,
payload.data.object.customer. -/
structure StripeEvent where
  type : Option String
  metadata_user_id : Option String
  customer : Option String
deriving Repr, DecidableEq

/-- stripe_webhook (webhook_handle_router.py lines 71-111), after JSON
parsing.  sig_ok stands for the outcome of the external Stripe signature
verification.  Missing user_id raises; invoice.payment_succeeded upgrades
to "pro", customer.subscription.deleted downgrades to "free", any other
event type leaves the state untouched; all three return status success. -/
def stripe_webhook (sig_ok : Bool) (st : DBState) (ev : StripeEvent) :
    DBState × HandlerResult String :=
  if !sig_ok then (st, .httpError "Invalid signature")
  else
    match ev.metadata_user_id with
    | none => (st, .httpError "Missing user_id in metadata")
    | some user_id =>
      if ev.type == some "invoice.payment_succeeded" then
        (update_user_subscription st user_id "pro" ev.customer, .ok "success")
      else if ev.type == some "customer.subscription.deleted" then
        (update_user_subscription st user_id "free" ev.customer, .ok "success")
      else
        (st, .ok "success")

/-! ## Apple notification handler (iap_manager/notification_router.py) -/

/-- The fields the handler reads from the decoded outer notification
payload: notificationType, subtype, data.signedTransactionInfo. -/
structure AppleNotificationFields where
  notificationType : Option String
  subtype : Option String
  signedTransactionInfo : Option String
deriving Repr, DecidableEq

/-- The field the handler reads from the decoded inner transaction
payload: originalTransactionId. -/
structure AppleTransactionFields where
  originalTransactionId : Option String
deriving Repr, DecidableEq

/-- The padding correction of decode_apple_jws (notification_router.py
lines 146-148): append padding equals signs when the segment length is
not a multiple of four. -/
def addBase64Padding (payload : String) : String :=
  let padding := 4 - payload.length % 4
  if padding != 4 then payload ++ String.mk (List.replicate padding '=') else payload

/-- decode_apple_jws (notification_router.py lines 131-158): split the
token on the dot separator, require exactly three parts, pad the middle
segment, then base64url-decode it and parse the result as JSON.  The
base64url decoding, utf-8 decoding and JSON parsing of the padded segment
are abstracted into the parse argument; any exception on that path is
caught and surfaced as the same HTTPException, which the none result
stands for. -/
def decode_apple_jws {α : Type} (parse : String → Option α) (jws_token : String) :
    Option α :=
  match pySplit '.' jws_token with
  | [_, payload, _] => parse (addBase64Padding payload)
  | _ => none

/-- determine_subscription_status (notification_router.py lines 161-185).
The source annotates notification_type as str, but the dict lookup that
feeds it may produce None, so it is an Option here; comparisons with the
literal strings are then False exactly as in Python.  The subtype
parameter is accepted and ignored, as in the source. -/
def determine_subscription_status (notification_type : Option String)
    (_subtype : Option String) : String :=
  if notification_type == some "DID_RENEW" || notification_type == some "SUBSCRIBED" then
    "Pro"
  else if notification_type == some "EXPIRED" then "Expired"
  else if notification_type == some "REFUND" then "Refunded"
  else if notification_type == some "DID_CHANGE_RENEWAL_STATUS" then "Pro"
  else "Pro"

/-- The response fields of the Apple webhook the claims mention. -/
structure AppleResp where
  status : String
  reason : Option String
  new_status : Option String
deriving Repr, DecidableEq

/-- apple_webhook (notification_router.py lines 22-128).  parseNotif and
parseTx abstract the base64url+JSON decoding of the outer and inner
signed tokens.  Decode failures and missing identifiers raise before any
write; an unmatched originalTransactionId is answered with status
ignored, reason user_not_found; otherwise the status determined from the
notification type is written, and when it is Pro both quota tables get
month_limit 100, in one transaction. -/
def apple_webhook
    (parseNotif : String → Option AppleNotificationFields)
    (parseTx : String → Option AppleTransactionFields)
    (st : DBState) (signedPayload : String) : DBState × HandlerResult AppleResp :=
  match decode_apple_jws parseNotif signedPayload with
  | none => (st, .httpError "Invalid JWS token")
  | some decoded =>
    match decoded.signedTransactionInfo with
    | none => (st, .httpError "Missing transaction info")
    | some sti =>
      if sti == "" then (st, .httpError "Missing transaction info")
      else
        match decode_apple_jws parseTx sti with
        | none => (st, .httpError "Invalid JWS token")
        | some transaction =>
          match transaction.originalTransactionId with
          | none => (st, .httpError "Missing originalTransactionId")
          | some otid =>
            if otid == "" then (st, .httpError "Missing originalTransactionId")
            else
              let new_status :=
                determine_subscription_status decoded.notificationType decoded.subtype
              match st.users.find? (fun u => u.apple_customer_id == some otid) with
              | none =>
                (st, .ok { status := "ignored", reason := some "user_not_found",
                           new_status := none })
              | some user =>
                let users := st.users.map fun u =>
                  if u.apple_customer_id == some otid then
                    { u with subscription_status := some new_status }
                  else u
                let st1 := { st with users := users }
                let st2 :=
                  if new_status == "Pro" then
                    { st1 with
                      quota_request := st1.quota_request.map fun q =>
                        if q.user_id == user.user_id then { q with month_limit := 100 }
                        else q,
                      quota_receipt := st1.quota_receipt.map fun q =>
                        if q.user_id == user.user_id then { q with month_limit := 100 }
                        else q }
                  else st1
                (st2, .ok { status := "success", reason := none,
                            new_status := some new_status })

/-! ## Referral reward service
(stripe_manager/referral_manager/reward_service.py) -/

/-- The result dictionary of process_referral_reward; only the fields the
claims mention are kept (in cents where monetary). -/
structure RewardResult where
  processed : Bool
  reason : Option String
  referrer_user_id : Option String
  credit_amount : Option Int
  new_balance : Option Int
deriving Repr, DecidableEq

/-- process_referral_reward (reward_service.py lines 22-151).  Looks for a
pending referral record of the referee; if none, no-op with reason
no_pending_referral.  Then looks for a user row matching both the referee
id and the supplied stripe_customer_id; if none, no-op with reason
user_not_pro.  Otherwise credits the referrer's balance row (creating it
when absent), appends an earned transaction whose reference_id is the
referral record id, and completes the record with credited_at = now. -/
def process_referral_reward (now : Nat) (st : DBState) (referee_user_id : String)
    (stripe_customer_id : Option String) : DBState × RewardResult :=
  match st.referral_records.find?
      (fun r => r.referee_user_id == referee_user_id && r.status == "pending") with
  | none =>
    (st, { processed := false, reason := some "no_pending_referral",
           referrer_user_id := none, credit_amount := none, new_balance := none })
  | some referral_record =>
    let referrer_user_id := referral_record.referrer_user_id
    let credit_amount := referral_record.credit_amount
    match st.users.find?
        (fun u => u.user_id == referee_user_id
          && u.stripe_customer_id == stripe_customer_id) with
    | none =>
      (st, { processed := false, reason := some "user_not_pro",
             referrer_user_id := none, credit_amount := none, new_balance := none })
    | some _user_obj =>
      let step3 : Int × Int × List UserCredit :=
        match st.user_credits.find? (fun c => c.user_id == referrer_user_id) with
        | some user_credit =>
          let balance_before := user_credit.available_credits
          let new_total := user_credit.total_credits + credit_amount
          let new_available := user_credit.available_credits + credit_amount
          (balance_before, new_available,
            st.user_credits.map fun c =>
              if c.user_id == referrer_user_id then
                { c with total_credits := new_total, available_credits := new_available }
              else c)
        | none =>
          ((0 : Int), credit_amount,
            st.user_credits ++
              [{ user_id := referrer_user_id, total_credits := credit_amount,
                 used_credits := 0, available_credits := credit_amount }])
      let balance_before := step3.1
      let balance_after := step3.2.1
      let credits := step3.2.2
      let tx : CreditTransaction :=
        { user_id := referrer_user_id, transaction_type := "earned",
          amount := credit_amount, balance_before := balance_before,
          balance_after := balance_after,
          description := "Referral reward from user " ++ referee_user_id,
          reference_id := toString referral_record.id }
      let records := st.referral_records.map fun r =>
        if r.id == referral_record.id then
          { r with status := "completed", stripe_customer_id := stripe_customer_id,
                   credited_at := some now }
        else r
      ({ st with user_credits := credits,
                 credit_transactions := st.credit_transactions ++ [tx],
                 referral_records := records },
       { processed := true, reason := none,
         referrer_user_id := some referrer_user_id,
         credit_amount := some credit_amount, new_balance := some balance_after })

/-! ## Credit deduction service
(stripe_manager/referral_manager/deduction_service.py) -/

/-- get_available_credits (deduction_service.py lines 23-41): the
available balance of the user's credit row, or 0 when no row exists. -/
def get_available_credits (st : DBState) (user_id : String) : Int :=
  match st.user_credits.find? (fun c => c.user_id == user_id) with
  | none => 0
  | some credit => credit.available_credits

/-- The result dictionary of apply_credit_to_invoice; only the fields the
claims mention are kept (in cents where monetary). -/
structure DeductionResult where
  applied : Bool
  reason : Option String
  deduction_amount : Option Int
  remaining_credits : Option Int
deriving Repr, DecidableEq

/-- apply_credit_to_invoice (deduction_service.py lines 44-144).
stripe_ok stands for the outcome of the external Stripe invoice-item
creation; the conversion between the Decimal euro balance and cents is
the identity here because balances are already modelled in cents.  With
no available credit the call is a no-op with reason no_credits; a failed
external call is a no-op with reason stripe_error; otherwise the
deduction min(available, invoice) is moved from available_credits to
used_credits and a used transaction referencing the invoice id is
appended.  The httpError branch models the NoResultFound exception of
scalar_one, unreachable when the balance row exists. -/
def apply_credit_to_invoice (stripe_ok : Bool) (st : DBState) (user_id : String)
    (stripe_invoice_id : String) (invoice_amount_cents : Int) :
    DBState × HandlerResult DeductionResult :=
  let available_credits := get_available_credits st user_id
  if available_credits ≤ 0 then
    (st, .ok { applied := false, reason := some "no_credits",
               deduction_amount := none, remaining_credits := none })
  else
    let credit_amount_cents := available_credits
    let deduction_cents := min credit_amount_cents invoice_amount_cents
    let deduction_amount := deduction_cents
    if !stripe_ok then
      (st, .ok { applied := false, reason := some "stripe_error",
                 deduction_amount := none, remaining_credits := none })
    else
      match st.user_credits.find? (fun c => c.user_id == user_id) with
      | none => (st, .httpError "NoResultFound")
      | some user_credit =>
        let balance_before := user_credit.available_credits
        let new_used := user_credit.used_credits + deduction_amount
        let new_available := user_credit.available_credits - deduction_amount
        let credits := st.user_credits.map fun c =>
          if c.user_id == user_id then
            { c with used_credits := new_used, available_credits := new_available }
          else c
        let tx : CreditTransaction :=
          { user_id := user_id, transaction_type := "used",
            amount := deduction_amount, balance_before := balance_before,
            balance_after := new_available,
            description := "Credit applied to invoice " ++ stripe_invoice_id,
            reference_id := stripe_invoice_id }
        ({ st with user_credits := credits,
                   credit_transactions := st.credit_transactions ++ [tx] },
         .ok { applied := true, reason := none,
               deduction_amount := some deduction_amount,
               remaining_credits := some new_available })

/-! ## Referral binding (stripe_manager/referral_manager/binding_router.py)
and utilities (stripe_manager/referral_manager/utils.py) -/

/-- is_code_expired (utils.py lines 41-45): a missing expiry never
expires; otherwise expired when the current time is past it. -/
def is_code_expired (now : Nat) (expires_at : Option Nat) : Bool :=
  match expires_at with
  | none => false
  | some t => now > t

/-- The fixed reward amount bind_referral_code writes
(binding_router.py line 110): 1.00 euro, i.e. 100 cents. -/
def bindCreditAmount : Int := 100

/-- bind_referral_code (binding_router.py lines 21-138).  The checks run
in source order: an existing record for the referee, then code existence,
activity, expiry, self-referral, user existence, and the already-Pro
check (case-insensitive, skipping a missing or empty status as Python
truthiness does).  On success exactly one pending record with
credit_amount 1.00 is appended; next_id models the autoincrement primary
key handed out by the store.  Every failing path raises before the
insert, leaving the state unchanged. -/
def bind_referral_code (now : Nat) (next_id : Nat) (st : DBState)
    (req_user_id : String) (req_referral_code : String) :
    DBState × HandlerResult String :=
  let user_id := req_user_id
  let referral_code := pyStrip (pyUpper req_referral_code)
  match st.referral_records.find? (fun r => r.referee_user_id == user_id) with
  | some _ => (st, .httpError "You have already used a referral code")
  | none =>
    match st.referral_codes.find? (fun c => c.referral_code == referral_code) with
    | none => (st, .httpError "Invalid referral code")
    | some code_obj =>
      if !code_obj.is_active then
        (st, .httpError "Referral code is inactive")
      else if code_obj.expires_at.isSome && is_code_expired now code_obj.expires_at then
        (st, .httpError "Referral code has expired")
      else if code_obj.user_id == user_id then
        (st, .httpError "You cannot use your own referral code")
      else
        match st.users.find? (fun u => u.user_id == user_id) with
        | none => (st, .httpError "User not found")
        | some user_obj =>
          let already_pro :=
            match user_obj.subscription_status with
            | none => false
            | some s => s != "" && pyLower s == "pro"
          if already_pro then
            (st, .httpError "Cannot bind referral code after subscription")
          else
            let referral_record : ReferralRecord :=
              { id := next_id, referrer_user_id := code_obj.user_id,
                referee_user_id := user_id, referral_code := referral_code,
                credit_amount := bindCreditAmount, status := "pending",
                stripe_customer_id := none, credited_at := none }
            ({ st with referral_records := st.referral_records ++ [referral_record] },
             .ok "success")

/-! ## Credit read endpoint
(stripe_manager/referral_manager/credit_router.py) -/

/-- The data object returned by the credits endpoint (in cents). -/
structure CreditView where
  total_credits : Int
  used_credits : Int
  available_credits : Int
deriving Repr, DecidableEq

/-- get_user_credits (credit_router.py lines 18-66): when no balance row
exists the endpoint still answers status success with all three balances
0.00; otherwise it returns the stored balances. -/
def get_user_credits (st : DBState) (user_id : String) :
    HandlerResult (String × CreditView) :=
  match st.user_credits.find? (fun c => c.user_id == user_id) with
  | none => .ok ("success", { total_credits := 0, used_credits := 0,
                              available_credits := 0 })
  | some credit =>
    .ok ("success", { total_credits := credit.total_credits,
                      used_credits := credit.used_credits,
                      available_credits := credit.available_credits })

/-! ## Derived notions used by the stated properties -/

/-- The credit balances the ledger holds for a user: the stored row, or
the all-zero row when none exists (the reading every public interface of
the service applies to a missing row). -/
def creditRowOf (st : DBState) (uid : String) : UserCredit :=
  match st.user_credits.find? (fun c => c.user_id == uid) with
  | none => { user_id := uid, total_credits := 0, used_credits := 0,
              available_credits := 0 }
  | some c => c

/-- The ledger invariant of one balance row: the total splits into used
plus available and all three are non-negative. -/
def creditInvariant (c : UserCredit) : Prop :=
  c.total_credits = c.used_credits + c.available_credits
    ∧ 0 ≤ c.total_credits ∧ 0 ≤ c.used_credits ∧ 0 ≤ c.available_credits

/-- The ledger invariant over the whole state. -/
def ledgerInvariant (st : DBState) : Prop :=
  ∀ c ∈ st.user_credits, creditInvariant c

/-- Every referral record carries a non-negative reward amount (bind only
ever writes 1.00). -/
def recordsNonneg (st : DBState) : Prop :=
  ∀ r ∈ st.referral_records, 0 ≤ r.credit_amount

/-- The primary-key constraint of the user_credits table: one row per
user. -/
def creditsKeyUnique (st : DBState) : Prop :=
  ∀ c1 ∈ st.user_credits, ∀ c2 ∈ st.user_credits,
    c1.user_id = c2.user_id → c1 = c2

/-- The store-level uniqueness constraint on referee_user_id in the
referral_records table: a user is referred at most once. -/
def refereeUnique (st : DBState) (referee : String) : Prop :=
  ∀ r1 ∈ st.referral_records, ∀ r2 ∈ st.referral_records,
    r1.referee_user_id = referee → r2.referee_user_id = referee → r1 = r2

instance decCreditInvariant (c : UserCredit) : Decidable (creditInvariant c) := by
  unfold creditInvariant; exact inferInstance

instance decLedgerInvariant (st : DBState) : Decidable (ledgerInvariant st) := by
  unfold ledgerInvariant; exact inferInstance

instance decRecordsNonneg (st : DBState) : Decidable (recordsNonneg st) := by
  unfold recordsNonneg; exact inferInstance

instance decCreditsKeyUnique (st : DBState) : Decidable (creditsKeyUnique st) := by
  unfold creditsKeyUnique; exact inferInstance

instance decRefereeUnique (st : DBState) (referee : String) :
    Decidable (refereeUnique st referee) := by
  unfold refereeUnique; exact inferInstance

/-! ## Concrete fixtures used by counterexamples and witnesses -/

/-- A user who is currently pro via Stripe. -/
def sampleProUser : UserLevelEn :=
  { user_id := "u1", subscription_status := some "pro",
    stripe_customer_id := some "cus_1", apple_customer_id := none }

/-- A free user carrying the Stripe customer id cus_1. -/
def sampleFreeUser : UserLevelEn :=
  { user_id := "u1", subscription_status := some "free",
    stripe_customer_id := some "cus_1", apple_customer_id := none }

/-- A pending referral record: r1 referred u1 for a 1.00 reward. -/
def samplePendingRecord : ReferralRecord :=
  { id := 7, referrer_user_id := "r1", referee_user_id := "u1",
    referral_code := "AB3X7K", credit_amount := 100, status := "pending",
    stripe_customer_id := none, credited_at := none }

/-- A zero balance row for the referrer r1. -/
def sampleZeroCredit : UserCredit :=
  { user_id := "r1", total_credits := 0, used_credits := 0, available_credits := 0 }

/-- State for the C1 counterexample: a pro user about to be downgraded. -/
def stateProQuota : DBState :=
  { users := [sampleProUser],
    quota_request := [{ user_id := "u1", month_limit := 100 }],
    quota_receipt := [{ user_id := "u1", month_limit := 100 }],
    referral_codes := [], referral_records := [],
    user_credits := [], credit_transactions := [] }

/-- The Stripe cancellation event for u1. -/
def sampleDeletedEvent : StripeEvent :=
  { type := some "customer.subscription.deleted",
    metadata_user_id := some "u1", customer := some "cus_1" }

/-- The Stripe payment-succeeded event for u1. -/
def samplePaymentEvent : StripeEvent :=
  { type := some "invoice.payment_succeeded",
    metadata_user_id := some "u1", customer := some "cus_1" }

/-- State for the referral scenarios: free referee u1 with a pending
record owed to referrer r1, whose balance is zero. -/
def stateReferralPending : DBState :=
  { users := [sampleFreeUser],
    quota_request := [{ user_id := "u1", month_limit := 5 }],
    quota_receipt := [{ user_id := "u1", month_limit := 5 }],
    referral_codes := [],
    referral_records := [samplePendingRecord],
    user_credits := [sampleZeroCredit],
    credit_transactions := [] }

/-- A parse function for the outer Apple token returning an unrecognized
notification kind wrapping the inner token a.b.c. -/
def sampleParseNotif : String → Option AppleNotificationFields := fun _ =>
  some { notificationType := some "CONSUMPTION_REQUEST", subtype := none,
         signedTransactionInfo := some "a.b.c" }

/-- A parse function for the inner Apple token returning transaction
ot_1. -/
def sampleParseTx : String → Option AppleTransactionFields := fun _ =>
  some { originalTransactionId := some "ot_1" }

/-- An Apple customer u1 whose status is Free with zeroed quotas. -/
def stateAppleFree : DBState :=
  { users := [{ user_id := "u1", subscription_status := some "Free",
                stripe_customer_id := none, apple_customer_id := some "ot_1" }],
    quota_request := [{ user_id := "u1", month_limit := 0 }],
    quota_receipt := [{ user_id := "u1", month_limit := 0 }],
    referral_codes := [], referral_records := [],
    user_credits := [], credit_transactions := [] }

/-- A user holding a 1.00 available balance, for the deduction scenario. -/
def stateCreditOne : DBState :=
  { users := [], quota_request := [], quota_receipt := [],
    referral_codes := [], referral_records := [],
    user_credits := [{ user_id := "u1", total_credits := 100, used_credits := 0,
                       available_credits := 100 }],
    credit_transactions := [] }

/-- A free user u1 and an active never-expiring code AB3X7K owned by r1,
ready for a successful bind. -/
def stateBindReady : DBState :=
  { users := [{ user_id := "u1", subscription_status := some "free",
                stripe_customer_id := none, apple_customer_id := none }],
    quota_request := [], quota_receipt := [],
    referral_codes := [{ user_id := "r1", referral_code := "AB3X7K",
                         is_active := true, expires_at := none }],
    referral_records := [], user_credits := [], credit_transactions := [] }

/-- A state with no credit row at all, for the missing-row readings. -/
def stateNoCredit : DBState :=
  { users := [], quota_request := [], quota_receipt := [],
    referral_codes := [], referral_records := [],
    user_credits := [], credit_transactions := [] }

/-- A parse function for the outer Apple token returning an EXPIRED
notification wrapping the inner token a.b.c. -/
def sampleParseNotifExpired : String → Option AppleNotificationFields := fun _ =>
  some { notificationType := some "EXPIRED", subtype := none,
         signedTransactionInfo := some "a.b.c" }

/-! ## Shared lemmas about the list model of the store -/

/-- find? commutes with an update map that does not change whether the
predicate holds. -/
theorem find?_map_eq {α : Type} (p : α → Bool) (f : α → α) (l : List α)
    (hp : ∀ x, p (f x) = p x) : (l.map f).find? p = (l.find? p).map f := by
  induction l with
  | nil => rfl
  | cons a t ih =>
    cases h : p a with
    | true =>
      have hfa : p (f a) = true := by rw [hp]; exact h
      simp [List.find?_cons_of_pos _ hfa, List.find?_cons_of_pos _ h]
    | false =>
      have hfa : ¬ p (f a) = true := by rw [hp, h]; simp
      have ha : ¬ p a = true := by simp [h]
      simp [List.find?_cons_of_neg _ hfa, List.find?_cons_of_neg _ ha, ih]

/-- Every row of a WHERE-guarded month_limit update that matches the key
carries the written limit (the guard and the key agree because the update
does not touch user_id). -/
theorem month_limit_after_update (l : List ReceiptUsageQuotaRow) (uid : String)
    (lim : Int) :
    ∀ q ∈ l.map (fun q =>
        if q.user_id == uid then { q with month_limit := lim } else q),
      q.user_id = uid → q.month_limit = lim := by
  intro q hq hid
  rcases List.mem_map.mp hq with ⟨a, -, rfl⟩
  by_cases h : a.user_id == uid
  · simp [h]
  · rw [if_neg h] at hid ⊢
    exact absurd (by simp [hid]) h

/-- Every row of the status update of update_user_subscription that
matches the key carries the written level. -/
theorem status_after_update (l : List UserLevelEn) (uid level : String)
    (cust : Option String) :
    ∀ u ∈ l.map (fun u =>
        if u.user_id == uid then
          { u with subscription_status := some level, stripe_customer_id := cust }
        else u),
      u.user_id = uid → u.subscription_status = some level := by
  intro u hu hid
  rcases List.mem_map.mp hu with ⟨a, -, rfl⟩
  by_cases h : a.user_id == uid
  · simp [h]
  · rw [if_neg h] at hid ⊢
    exact absurd (by simp [hid]) h

/-! ## Claim theorems -/

/-- C10: for a user with no UserCredit row, the public credit interfaces
treat the missing row as a zero balance rather than an error: the credit
read endpoint answers success with all three balances 0.00,
get_available_credits returns 0.00, and credit deduction answers
applied=false with reason no_credits, leaving the state unchanged. -/
theorem c10_missing_credit_row_reads_as_zero
    (st : DBState) (uid inv : String) (amt : Int) (ok : Bool)
    (h : st.user_credits.find? (fun c => c.user_id == uid) = none) :
    get_user_credits st uid
      = .ok ("success", { total_credits := 0, used_credits := 0, available_credits := 0 })
    ∧ get_available_credits st uid = 0
    ∧ apply_credit_to_invoice ok st uid inv amt
      = (st, .ok { applied := false, reason := some "no_credits",
                   deduction_amount := none, remaining_credits := none }) := by
  refine ⟨?_, ?_, ?_⟩
  · simp [get_user_credits, h]
  · simp [get_available_credits, h]
  · simp [apply_credit_to_invoice, get_available_credits, h]

/-- Witness for C10 at the concrete empty state. -/
theorem c10_missing_credit_row_reads_as_zero_witness :
    stateNoCredit.user_credits.find? (fun c => c.user_id == "u1") = none
    ∧ get_user_credits stateNoCredit "u1"
      = .ok ("success", { total_credits := 0, used_credits := 0, available_credits := 0 })
    ∧ get_available_credits stateNoCredit "u1" = 0
    ∧ apply_credit_to_invoice true stateNoCredit "u1" "in_1" 60
      = (stateNoCredit, .ok { applied := false, reason := some "no_credits",
                              deduction_amount := none, remaining_credits := none }) :=
  ⟨by decide, c10_missing_credit_row_reads_as_zero stateNoCredit "u1" "in_1" 60 true (by decide)⟩

/-- C9: a signed Apple token without exactly three dot-separated parts,
or whose padded middle segment does not decode to a valid document, makes
decode_apple_jws fail, and the notification handler then raises the
malformed-token error with the persisted state untouched. -/
theorem c9_malformed_token_rejected
    (parseNotif : String → Option AppleNotificationFields)
    (parseTx : String → Option AppleTransactionFields)
    (st : DBState) (token : String) :
    ((pySplit '.' token).length ≠ 3 → decode_apple_jws parseNotif token = none)
    ∧ (∀ p0 p1 p2, pySplit '.' token = [p0, p1, p2] →
        parseNotif (addBase64Padding p1) = none →
        decode_apple_jws parseNotif token = none)
    ∧ (decode_apple_jws parseNotif token = none →
        apple_webhook parseNotif parseTx st token
          = (st, .httpError "Invalid JWS token")) := by
  refine ⟨?_, ?_, ?_⟩
  · intro hlen
    unfold decode_apple_jws
    split
    · next p0 p1 p2 heq => exact absurd (by rw [heq]; rfl) hlen
    · rfl
  · intro p0 p1 p2 hs hparse
    unfold decode_apple_jws
    rw [hs]
    exact hparse
  · intro h
    unfold apple_webhook
    rw [h]

/-- Witness for C9 at the one-part token xyz. -/
theorem c9_malformed_token_rejected_witness :
    (pySplit '.' "xyz").length ≠ 3
    ∧ apple_webhook sampleParseNotif sampleParseTx stateAppleFree "xyz"
      = (stateAppleFree, .httpError "Invalid JWS token") :=
  ⟨by decide,
    (c9_malformed_token_rejected sampleParseNotif sampleParseTx stateAppleFree "xyz").2.2
      ((c9_malformed_token_rejected sampleParseNotif sampleParseTx stateAppleFree "xyz").1
        (by decide))⟩

/-- C8 (code bug): the recognized kinds map as claimed (DID_RENEW and
SUBSCRIBED to Pro, EXPIRED to Expired, REFUND to Refunded), but an
unrecognized notificationType is mapped to Pro rather than to a no-change
Unknown, and DID_CHANGE_RENEWAL_STATUS is mapped to Pro unconditionally;
running the handler on an unrecognized kind for a Free user therefore
rewrites the status to Pro, contradicting the claim and the code's own
comment that other types keep the original status. -/
theorem c8_unknown_kind_upgrades_to_pro :
    determine_subscription_status (some "DID_RENEW") none = "Pro"
    ∧ determine_subscription_status (some "SUBSCRIBED") none = "Pro"
    ∧ determine_subscription_status (some "EXPIRED") none = "Expired"
    ∧ determine_subscription_status (some "REFUND") none = "Refunded"
    ∧ determine_subscription_status (some "DID_CHANGE_RENEWAL_STATUS") none = "Pro"
    ∧ determine_subscription_status (some "CONSUMPTION_REQUEST") none = "Pro"
    ∧ stateAppleFree.users.map UserLevelEn.subscription_status = [some "Free"]
    ∧ (apple_webhook sampleParseNotif sampleParseTx stateAppleFree "x.y.z").1.users.map
        UserLevelEn.subscription_status = [some "Pro"]
    ∧ (some "Pro" : Option String) ≠ some "Free" := by
  decide

/-- C1 (counterexample): processing a customer.subscription.deleted
Stripe event completes with success and sets the user's status to free,
yet writes month_limit 5, not the claimed 0, into both quota tables. -/
theorem c1_counterexample :
    (stripe_webhook true stateProQuota sampleDeletedEvent).2 = .ok "success"
    ∧ (stripe_webhook true stateProQuota sampleDeletedEvent).1.users.map
        UserLevelEn.subscription_status = [some "free"]
    ∧ (stripe_webhook true stateProQuota sampleDeletedEvent).1.quota_request
      = [{ user_id := "u1", month_limit := 5 }]
    ∧ (stripe_webhook true stateProQuota sampleDeletedEvent).1.quota_receipt
      = [{ user_id := "u1", month_limit := 5 }]
    ∧ (5 : Int) ≠ 0 := by
  decide

/-- Characterization of the Apple handler on the path where both tokens
decode, the identifiers are present and the user is found: the status
determined from the notification type is written to every row carrying
the transaction id, and the quota rows of the found user are set to 100
exactly when that status is Pro. -/
theorem apple_webhook_found
    (parseNotif : String → Option AppleNotificationFields)
    (parseTx : String → Option AppleTransactionFields)
    (st : DBState) (token : String) (notif : AppleNotificationFields)
    (sti : String) (tx : AppleTransactionFields) (otid : String) (user : UserLevelEn)
    (hdec : decode_apple_jws parseNotif token = some notif)
    (hsti : notif.signedTransactionInfo = some sti) (hne : sti ≠ "")
    (hdec2 : decode_apple_jws parseTx sti = some tx)
    (hotid : tx.originalTransactionId = some otid) (hone : otid ≠ "")
    (hfind : st.users.find? (fun u => u.apple_customer_id == some otid) = some user) :
    apple_webhook parseNotif parseTx st token
      = (let ns := determine_subscription_status notif.notificationType notif.subtype
         let st1 : DBState := { st with users := st.users.map fun u =>
           if u.apple_customer_id == some otid then
             { u with subscription_status := some ns } else u }
         ((if ns == "Pro" then
            { st1 with
              quota_request := st1.quota_request.map fun q =>
                if q.user_id == user.user_id then { q with month_limit := 100 } else q,
              quota_receipt := st1.quota_receipt.map fun q =>
                if q.user_id == user.user_id then { q with month_limit := 100 } else q }
           else st1),
          .ok { status := "success", reason := none, new_status := some ns })) := by
  unfold apple_webhook
  rw [hdec]
  dsimp only
  rw [hsti]
  dsimp only
  rw [if_neg (by simp [hne])]
  rw [hdec2]
  dsimp only
  rw [hotid]
  dsimp only
  rw [if_neg (by simp [hone])]
  rw [hfind]

/-- C1 (amended): immediately after a Stripe reconciliation writing level
L, the affected user's month_limit in both quota tables equals 100 when L
is pro and 5 otherwise, and the status equals L; immediately after an
Apple reconciliation that decodes and finds the user, both month_limit
values equal 100 when the new status is Pro, and keep their previous
values otherwise. -/
theorem c1_amended_quota_projection :
    (∀ (st : DBState) (uid level : String) (cust : Option String),
      (∀ q ∈ (update_user_subscription st uid level cust).quota_request,
        q.user_id = uid → q.month_limit = if level == "pro" then 100 else 5)
      ∧ (∀ q ∈ (update_user_subscription st uid level cust).quota_receipt,
        q.user_id = uid → q.month_limit = if level == "pro" then 100 else 5)
      ∧ (∀ u ∈ (update_user_subscription st uid level cust).users,
        u.user_id = uid → u.subscription_status = some level))
    ∧ (∀ (parseNotif : String → Option AppleNotificationFields)
        (parseTx : String → Option AppleTransactionFields)
        (st : DBState) (token : String) (notif : AppleNotificationFields)
        (sti : String) (tx : AppleTransactionFields) (otid : String)
        (user : UserLevelEn),
        decode_apple_jws parseNotif token = some notif →
        notif.signedTransactionInfo = some sti → sti ≠ "" →
        decode_apple_jws parseTx sti = some tx →
        tx.originalTransactionId = some otid → otid ≠ "" →
        st.users.find? (fun u => u.apple_customer_id == some otid) = some user →
        (determine_subscription_status notif.notificationType notif.subtype = "Pro" →
          (∀ q ∈ (apple_webhook parseNotif parseTx st token).1.quota_request,
            q.user_id = user.user_id → q.month_limit = 100)
          ∧ (∀ q ∈ (apple_webhook parseNotif parseTx st token).1.quota_receipt,
            q.user_id = user.user_id → q.month_limit = 100))
        ∧ (determine_subscription_status notif.notificationType notif.subtype ≠ "Pro" →
          (apple_webhook parseNotif parseTx st token).1.quota_request = st.quota_request
          ∧ (apple_webhook parseNotif parseTx st token).1.quota_receipt
            = st.quota_receipt)) := by
  constructor
  · intro st uid level cust
    exact ⟨month_limit_after_update _ _ _, month_limit_after_update _ _ _,
           status_after_update _ _ _ _⟩
  · intro parseNotif parseTx st token notif sti tx otid user
    intro hdec hsti hne hdec2 hotid hone hfind
    have hmain := apple_webhook_found parseNotif parseTx st token notif sti tx otid
      user hdec hsti hne hdec2 hotid hone hfind
    constructor
    · intro hpro
      rw [hmain]
      dsimp only
      rw [if_pos (beq_iff_eq.mpr hpro)]
      exact ⟨month_limit_after_update _ _ _, month_limit_after_update _ _ _⟩
    · intro hnp
      rw [hmain]
      dsimp only
      rw [if_neg (by simp [hnp])]
      exact ⟨rfl, rfl⟩

/-- Witness for C1 (amended): the downgraded Stripe user carries limit 5,
and an EXPIRED Apple notification leaves the quota rows of the found user
unchanged. -/
theorem c1_amended_quota_projection_witness :
    (({ user_id := "u1", month_limit := 5 } : ReceiptUsageQuotaRow)
        ∈ (update_user_subscription stateProQuota "u1" "free" (some "cus_1")).quota_request
      ∧ ({ user_id := "u1", month_limit := 5 } : ReceiptUsageQuotaRow).month_limit
        = if ("free" : String) == "pro" then 100 else 5)
    ∧ (apple_webhook sampleParseNotifExpired sampleParseTx stateAppleFree "x.y.z").1.quota_request
      = stateAppleFree.quota_request :=
  ⟨⟨by decide,
    (c1_amended_quota_projection.1 stateProQuota "u1" "free" (some "cus_1")).1
      { user_id := "u1", month_limit := 5 } (by decide) (by decide)⟩,
   ((c1_amended_quota_projection.2 sampleParseNotifExpired sampleParseTx stateAppleFree
      "x.y.z"
      { notificationType := some "EXPIRED", subtype := none,
        signedTransactionInfo := some "a.b.c" }
      "a.b.c" { originalTransactionId := some "ot_1" } "ot_1"
      { user_id := "u1", subscription_status := some "Free",
        stripe_customer_id := none, apple_customer_id := some "ot_1" }
      (by decide) (by decide) (by decide) (by decide) (by decide) (by decide)
      (by decide)).2 (by decide)).1⟩

/-- C2 (counterexample): a PaymentSucceeded Stripe event for u1, whose
referrer r1 holds a pending record and a zero balance, completes with
success, sets u1 to pro with both limits 100, yet leaves r1's balance at
zero and the record pending: the handler never invokes the reward step. -/
theorem c2_counterexample :
    (stripe_webhook true stateReferralPending samplePaymentEvent).2 = .ok "success"
    ∧ (stripe_webhook true stateReferralPending samplePaymentEvent).1.users.map
        UserLevelEn.subscription_status = [some "pro"]
    ∧ (stripe_webhook true stateReferralPending samplePaymentEvent).1.quota_request
      = [{ user_id := "u1", month_limit := 100 }]
    ∧ (stripe_webhook true stateReferralPending samplePaymentEvent).1.quota_receipt
      = [{ user_id := "u1", month_limit := 100 }]
    ∧ (stripe_webhook true stateReferralPending samplePaymentEvent).1.user_credits
      = [sampleZeroCredit]
    ∧ (stripe_webhook true stateReferralPending samplePaymentEvent).1.referral_records
      = [samplePendingRecord]
    ∧ sampleZeroCredit.available_credits
      ≠ sampleZeroCredit.available_credits + samplePendingRecord.credit_amount
    ∧ samplePendingRecord.status ≠ "completed" := by
  decide

/-- C2 (amended): processing a PaymentSucceeded Stripe event carrying
user id U sets U's subscription_status to pro and both month_limit values
to 100, but triggers no referral reward: the UserCredit,
CreditTransaction and ReferralRecord tables are returned exactly as they
were, so every referrer's balance and every pending record are
unchanged. -/
theorem c2_amended_no_reward_on_payment (st : DBState) (ev : StripeEvent) (uid : String)
    (htype : ev.type = some "invoice.payment_succeeded")
    (huid : ev.metadata_user_id = some uid) :
    stripe_webhook true st ev
      = (update_user_subscription st uid "pro" ev.customer, .ok "success")
    ∧ (∀ u ∈ (stripe_webhook true st ev).1.users,
        u.user_id = uid → u.subscription_status = some "pro")
    ∧ (∀ q ∈ (stripe_webhook true st ev).1.quota_request,
        q.user_id = uid → q.month_limit = 100)
    ∧ (∀ q ∈ (stripe_webhook true st ev).1.quota_receipt,
        q.user_id = uid → q.month_limit = 100)
    ∧ (stripe_webhook true st ev).1.user_credits = st.user_credits
    ∧ (stripe_webhook true st ev).1.credit_transactions = st.credit_transactions
    ∧ (stripe_webhook true st ev).1.referral_records = st.referral_records := by
  have hmain : stripe_webhook true st ev
      = (update_user_subscription st uid "pro" ev.customer, .ok "success") := by
    simp [stripe_webhook, huid, htype]
  refine ⟨hmain, ?_, ?_, ?_, ?_, ?_, ?_⟩ <;> rw [hmain]
  · exact status_after_update _ _ _ _
  · intro q hq hqid
    have h := month_limit_after_update st.quota_request uid _ q hq hqid
    simpa using h
  · intro q hq hqid
    have h := month_limit_after_update st.quota_receipt uid _ q hq hqid
    simpa using h
  · rfl
  · rfl
  · rfl

/-- Witness for C2 (amended) at the pending-referral state. -/
theorem c2_amended_no_reward_on_payment_witness :
    samplePaymentEvent.type = some "invoice.payment_succeeded"
    ∧ samplePaymentEvent.metadata_user_id = some "u1"
    ∧ (stripe_webhook true stateReferralPending samplePaymentEvent).1.user_credits
      = stateReferralPending.user_credits
    ∧ (stripe_webhook true stateReferralPending samplePaymentEvent).1.referral_records
      = stateReferralPending.referral_records :=
  ⟨rfl, rfl,
   (c2_amended_no_reward_on_payment stateReferralPending samplePaymentEvent "u1"
     rfl rfl).2.2.2.2.1,
   (c2_amended_no_reward_on_payment stateReferralPending samplePaymentEvent "u1"
     rfl rfl).2.2.2.2.2.2⟩

/-- Characterization of the deduction service on the main path: a balance
row with positive available credit and a successful external call yield
the explicit updated state and response. -/
theorem apply_credit_main (st : DBState) (uid inv : String) (amt : Int)
    (c0 : UserCredit)
    (hfind : st.user_credits.find? (fun c => c.user_id == uid) = some c0)
    (hpos : 0 < c0.available_credits) :
    apply_credit_to_invoice true st uid inv amt
      = ({ st with
            user_credits := st.user_credits.map fun c =>
              if c.user_id == uid then
                { c with
                  used_credits := c0.used_credits + min c0.available_credits amt,
                  available_credits :=
                    c0.available_credits - min c0.available_credits amt }
              else c,
            credit_transactions := st.credit_transactions ++
              [{ user_id := uid, transaction_type := "used",
                 amount := min c0.available_credits amt,
                 balance_before := c0.available_credits,
                 balance_after := c0.available_credits - min c0.available_credits amt,
                 description := "Credit applied to invoice " ++ inv,
                 reference_id := inv }] },
         .ok { applied := true, reason := none,
               deduction_amount := some (min c0.available_credits amt),
               remaining_credits :=
                 some (c0.available_credits - min c0.available_credits amt) }) := by
  have hav : get_available_credits st uid = c0.available_credits := by
    unfold get_available_credits; rw [hfind]
  unfold apply_credit_to_invoice
  rw [hav]
  rw [if_neg (not_le.mpr hpos)]
  simp only [Bool.not_true, Bool.false_eq_true, if_false]
  rw [hfind]

/-- C7: credit deduction is a no-op with reason no_credits when no credit
is available (zero or missing row), and otherwise moves
min(available, invoice) from available_credits to used_credits, leaves
total_credits unchanged, appends a used ledger entry referencing the
invoice with balance_before the prior available balance and
balance_after that balance minus the deduction, and reports the
remaining balance. -/
theorem c7_deduction_applies_min (ok : Bool) (st : DBState) (uid inv : String)
    (amt : Int) :
    (get_available_credits st uid ≤ 0 →
      apply_credit_to_invoice ok st uid inv amt
        = (st, .ok { applied := false, reason := some "no_credits",
                     deduction_amount := none, remaining_credits := none }))
    ∧ (∀ c0, st.user_credits.find? (fun c => c.user_id == uid) = some c0 →
        0 < c0.available_credits →
        creditRowOf (apply_credit_to_invoice true st uid inv amt).1 uid
          = { c0 with
              used_credits := c0.used_credits + min c0.available_credits amt,
              available_credits := c0.available_credits - min c0.available_credits amt }
        ∧ (apply_credit_to_invoice true st uid inv amt).1.credit_transactions
          = st.credit_transactions ++
            [{ user_id := uid, transaction_type := "used",
               amount := min c0.available_credits amt,
               balance_before := c0.available_credits,
               balance_after := c0.available_credits - min c0.available_credits amt,
               description := "Credit applied to invoice " ++ inv,
               reference_id := inv }]
        ∧ (apply_credit_to_invoice true st uid inv amt).2
          = .ok { applied := true, reason := none,
                  deduction_amount := some (min c0.available_credits amt),
                  remaining_credits :=
                    some (c0.available_credits - min c0.available_credits amt) }) := by
  constructor
  · intro h
    unfold apply_credit_to_invoice
    rw [if_pos h]
  · intro c0 hfind hpos
    have hmain := apply_credit_main st uid inv amt c0 hfind hpos
    refine ⟨?_, by rw [hmain], by rw [hmain]⟩
    rw [hmain]
    unfold creditRowOf
    rw [find?_map_eq _ _ _ ?hp]
    case hp =>
      intro c
      by_cases h : c.user_id == uid <;> simp [h]
    rw [hfind]
    have hc0 := List.find?_some hfind
    simp only [] at hc0
    simp [hc0]
    intro hne'
    exact absurd (beq_iff_eq.mp hc0) hne'

/-- Witness for C7: the 0.60 deduction scenario against a 1.00 balance,
and the no-credit reading at the empty state. -/
theorem c7_deduction_applies_min_witness :
    (stateCreditOne.user_credits.find? (fun c => c.user_id == "u1")
      = some { user_id := "u1", total_credits := 100, used_credits := 0,
               available_credits := 100 })
    ∧ creditRowOf (apply_credit_to_invoice true stateCreditOne "u1" "in_1" 60).1 "u1"
      = { user_id := "u1", total_credits := 100, used_credits := 60,
          available_credits := 40 }
    ∧ (apply_credit_to_invoice true stateCreditOne "u1" "in_1" 60).1.credit_transactions
      = [{ user_id := "u1", transaction_type := "used", amount := 60,
           balance_before := 100, balance_after := 40,
           description := "Credit applied to invoice in_1", reference_id := "in_1" }]
    ∧ (apply_credit_to_invoice true stateCreditOne "u1" "in_1" 60).2
      = .ok { applied := true, reason := none, deduction_amount := some 60,
              remaining_credits := some 40 }
    ∧ get_available_credits stateNoCredit "u1" ≤ 0
    ∧ apply_credit_to_invoice false stateNoCredit "u1" "in_1" 60
      = (stateNoCredit, .ok { applied := false, reason := some "no_credits",
                              deduction_amount := none, remaining_credits := none }) := by
  have h := (c7_deduction_applies_min true stateCreditOne "u1" "in_1" 60).2
    { user_id := "u1", total_credits := 100, used_credits := 0,
      available_credits := 100 } (by decide) (by decide)
  have h0 := (c7_deduction_applies_min false stateNoCredit "u1" "in_1" 60).1 (by decide)
  exact ⟨by decide, h.1.trans (by decide), h.2.1.trans (by decide),
         h.2.2.trans (by decide), by decide, h0⟩

/-- Characterization of the reward service when a pending record and a
matching user exist and the referrer already has a balance row. -/
theorem reward_success_existing_row (now : Nat) (st : DBState) (referee : String)
    (cust : Option String) (r : ReferralRecord) (u : UserLevelEn) (c0 : UserCredit)
    (hrec : st.referral_records.find?
      (fun x => x.referee_user_id == referee && x.status == "pending") = some r)
    (huser : st.users.find?
      (fun x => x.user_id == referee && x.stripe_customer_id == cust) = some u)
    (hcred : st.user_credits.find?
      (fun c => c.user_id == r.referrer_user_id) = some c0) :
    process_referral_reward now st referee cust
      = ({ st with
           user_credits := st.user_credits.map fun c =>
             if c.user_id == r.referrer_user_id then
               { c with total_credits := c0.total_credits + r.credit_amount,
                        available_credits := c0.available_credits + r.credit_amount }
             else c,
           credit_transactions := st.credit_transactions ++
             [{ user_id := r.referrer_user_id, transaction_type := "earned",
                amount := r.credit_amount,
                balance_before := c0.available_credits,
                balance_after := c0.available_credits + r.credit_amount,
                description := "Referral reward from user " ++ referee,
                reference_id := toString r.id }],
           referral_records := st.referral_records.map fun x =>
             if x.id == r.id then
               { x with status := "completed", stripe_customer_id := cust,
                        credited_at := some now }
             else x },
         { processed := true, reason := none,
           referrer_user_id := some r.referrer_user_id,
           credit_amount := some r.credit_amount,
           new_balance := some (c0.available_credits + r.credit_amount) }) := by
  unfold process_referral_reward
  rw [hrec]
  dsimp only
  rw [huser]
  dsimp only
  rw [hcred]

/-- Characterization of the reward service when a pending record and a
matching user exist but the referrer has no balance row yet. -/
theorem reward_success_new_row (now : Nat) (st : DBState) (referee : String)
    (cust : Option String) (r : ReferralRecord) (u : UserLevelEn)
    (hrec : st.referral_records.find?
      (fun x => x.referee_user_id == referee && x.status == "pending") = some r)
    (huser : st.users.find?
      (fun x => x.user_id == referee && x.stripe_customer_id == cust) = some u)
    (hcred : st.user_credits.find?
      (fun c => c.user_id == r.referrer_user_id) = none) :
    process_referral_reward now st referee cust
      = ({ st with
           user_credits := st.user_credits ++
             [{ user_id := r.referrer_user_id, total_credits := r.credit_amount,
                used_credits := 0, available_credits := r.credit_amount }],
           credit_transactions := st.credit_transactions ++
             [{ user_id := r.referrer_user_id, transaction_type := "earned",
                amount := r.credit_amount,
                balance_before := 0,
                balance_after := r.credit_amount,
                description := "Referral reward from user " ++ referee,
                reference_id := toString r.id }],
           referral_records := st.referral_records.map fun x =>
             if x.id == r.id then
               { x with status := "completed", stripe_customer_id := cust,
                        credited_at := some now }
             else x },
         { processed := true, reason := none,
           referrer_user_id := some r.referrer_user_id,
           credit_amount := some r.credit_amount,
           new_balance := some r.credit_amount }) := by
  unfold process_referral_reward
  rw [hrec]
  dsimp only
  rw [huser]
  dsimp only
  rw [hcred]

/-- The reward service is a pure no-op when the referee has no pending
record. -/
theorem reward_no_pending (now : Nat) (st : DBState) (referee : String)
    (cust : Option String)
    (h : st.referral_records.find?
      (fun x => x.referee_user_id == referee && x.status == "pending") = none) :
    process_referral_reward now st referee cust
      = (st, { processed := false, reason := some "no_pending_referral",
               referrer_user_id := none, credit_amount := none,
               new_balance := none }) := by
  unfold process_referral_reward
  rw [h]

/-- C5: the reward operation answers processed=false with reason
no_pending_referral when the referee has no pending record, answers
processed=false with reason user_not_pro when no user row matches both
the referee id and the supplied provider-customer-id, leaves the state
untouched in both no-op cases, and otherwise adds the record's
credit_amount to the referrer's total and available balances, appends an
earned transaction whose reference_id is the referral record id with
consistent balances, and completes the record with credited_at set, in
the single returned state. -/
theorem c5_reward_behavior (now : Nat) (st : DBState) (referee : String)
    (cust : Option String) :
    (st.referral_records.find?
        (fun x => x.referee_user_id == referee && x.status == "pending") = none →
      process_referral_reward now st referee cust
        = (st, { processed := false, reason := some "no_pending_referral",
                 referrer_user_id := none, credit_amount := none, new_balance := none }))
    ∧ (∀ r, st.referral_records.find?
          (fun x => x.referee_user_id == referee && x.status == "pending") = some r →
        st.users.find?
          (fun x => x.user_id == referee && x.stripe_customer_id == cust) = none →
        process_referral_reward now st referee cust
          = (st, { processed := false, reason := some "user_not_pro",
                   referrer_user_id := none, credit_amount := none,
                   new_balance := none }))
    ∧ (∀ r u, st.referral_records.find?
          (fun x => x.referee_user_id == referee && x.status == "pending") = some r →
        st.users.find?
          (fun x => x.user_id == referee && x.stripe_customer_id == cust) = some u →
        (process_referral_reward now st referee cust).2
          = { processed := true, reason := none,
              referrer_user_id := some r.referrer_user_id,
              credit_amount := some r.credit_amount,
              new_balance := some
                ((creditRowOf st r.referrer_user_id).available_credits
                  + r.credit_amount) }
        ∧ creditRowOf (process_referral_reward now st referee cust).1 r.referrer_user_id
          = { creditRowOf st r.referrer_user_id with
              total_credits :=
                (creditRowOf st r.referrer_user_id).total_credits + r.credit_amount,
              available_credits :=
                (creditRowOf st r.referrer_user_id).available_credits
                  + r.credit_amount }
        ∧ (process_referral_reward now st referee cust).1.credit_transactions
          = st.credit_transactions ++
            [{ user_id := r.referrer_user_id, transaction_type := "earned",
               amount := r.credit_amount,
               balance_before := (creditRowOf st r.referrer_user_id).available_credits,
               balance_after :=
                 (creditRowOf st r.referrer_user_id).available_credits
                   + r.credit_amount,
               description := "Referral reward from user " ++ referee,
               reference_id := toString r.id }]
        ∧ (process_referral_reward now st referee cust).1.referral_records
          = st.referral_records.map fun x =>
              if x.id == r.id then
                { x with status := "completed", stripe_customer_id := cust,
                         credited_at := some now }
              else x) := by
  refine ⟨?_, ?_, ?_⟩
  · intro h
    unfold process_referral_reward
    rw [h]
  · intro r hr hu
    unfold process_referral_reward
    rw [hr]
    dsimp only
    rw [hu]
  · intro r u hr hu
    cases hcred : st.user_credits.find? (fun c => c.user_id == r.referrer_user_id) with
    | some c0 =>
      have hm := reward_success_existing_row now st referee cust r u c0 hr hu hcred
      have hrow : creditRowOf st r.referrer_user_id = c0 := by
        unfold creditRowOf; rw [hcred]
      rw [hm, hrow]
      refine ⟨rfl, ?_, rfl, rfl⟩
      unfold creditRowOf
      rw [find?_map_eq _ _ _ ?hp]
      case hp =>
        intro c
        by_cases h : c.user_id == r.referrer_user_id <;> simp [h]
      rw [hcred]
      have hc0 := List.find?_some hcred
      simp only [] at hc0
      simp [hc0]
      intro hne'
      exact absurd (beq_iff_eq.mp hc0) hne'
    | none =>
      have hm := reward_success_new_row now st referee cust r u hr hu hcred
      have hrow : creditRowOf st r.referrer_user_id
          = { user_id := r.referrer_user_id, total_credits := 0, used_credits := 0,
              available_credits := 0 } := by
        unfold creditRowOf; rw [hcred]
      rw [hm, hrow]
      refine ⟨by simp, ?_, by simp, rfl⟩
      unfold creditRowOf
      rw [List.find?_append, hcred]
      simp

/-- Witness for C5: all three cases at concrete states — empty state,
mismatching customer id, and the successful crediting of r1. -/
theorem c5_reward_behavior_witness :
    (stateNoCredit.referral_records.find?
        (fun x => x.referee_user_id == "u1" && x.status == "pending") = none
      ∧ process_referral_reward 5 stateNoCredit "u1" (some "cus_1")
        = (stateNoCredit,
           { processed := false, reason := some "no_pending_referral",
             referrer_user_id := none, credit_amount := none, new_balance := none }))
    ∧ process_referral_reward 5 stateReferralPending "u1" (some "cus_X")
      = (stateReferralPending,
         { processed := false, reason := some "user_not_pro",
           referrer_user_id := none, credit_amount := none, new_balance := none })
    ∧ (process_referral_reward 5 stateReferralPending "u1" (some "cus_1")).2
      = { processed := true, reason := none, referrer_user_id := some "r1",
          credit_amount := some 100, new_balance := some 100 }
    ∧ creditRowOf (process_referral_reward 5 stateReferralPending "u1" (some "cus_1")).1
        "r1"
      = { user_id := "r1", total_credits := 100, used_credits := 0,
          available_credits := 100 }
    ∧ (process_referral_reward 5 stateReferralPending "u1" (some "cus_1")).1.credit_transactions
      = [{ user_id := "r1", transaction_type := "earned", amount := 100,
           balance_before := 0, balance_after := 100,
           description := "Referral reward from user u1", reference_id := "7" }]
    ∧ (process_referral_reward 5 stateReferralPending "u1" (some "cus_1")).1.referral_records
      = [{ samplePendingRecord with status := "completed", stripe_customer_id := some "cus_1", credited_at := some 5 }] := by
  have h1 := (c5_reward_behavior 5 stateNoCredit "u1" (some "cus_1")).1 (by decide)
  have h2 := (c5_reward_behavior 5 stateReferralPending "u1" (some "cus_X")).2.1
    samplePendingRecord (by decide) (by decide)
  have h3 := (c5_reward_behavior 5 stateReferralPending "u1" (some "cus_1")).2.2
    samplePendingRecord sampleFreeUser (by decide) (by decide)
  exact ⟨⟨by decide, h1⟩, h2, h3.1.trans (by decide), h3.2.1.trans (by decide),
         h3.2.2.1.trans (by decide), h3.2.2.2.trans (by decide)⟩

/-- C4: under the store's uniqueness constraint on referee_user_id,
running the reward operation a second time with the same arguments after
a successful first run is a no-op: the first run completed the only
pending record of the referee, so the second run answers processed=false
with reason no_pending_referral and returns the ledger state of the
first run unchanged — the referrer's balance does not double. -/
theorem c4_reward_idempotent (now1 now2 : Nat) (st : DBState) (referee : String)
    (cust : Option String)
    (huniq : refereeUnique st referee)
    (hfirst : (process_referral_reward now1 st referee cust).2.processed = true) :
    process_referral_reward now2 (process_referral_reward now1 st referee cust).1
        referee cust
      = ((process_referral_reward now1 st referee cust).1,
         { processed := false, reason := some "no_pending_referral",
           referrer_user_id := none, credit_amount := none,
           new_balance := none }) := by
  cases hr : st.referral_records.find?
      (fun x => x.referee_user_id == referee && x.status == "pending") with
  | none =>
    exfalso
    rw [reward_no_pending now1 st referee cust hr] at hfirst
    simp at hfirst
  | some r =>
    cases hu : st.users.find?
        (fun x => x.user_id == referee && x.stripe_customer_id == cust) with
    | none =>
      exfalso
      unfold process_referral_reward at hfirst
      rw [hr] at hfirst
      dsimp only at hfirst
      rw [hu] at hfirst
      simp at hfirst
    | some u =>
      have hrecs : (process_referral_reward now1 st referee cust).1.referral_records
          = st.referral_records.map (fun x =>
              if x.id == r.id then
                { x with status := "completed", stripe_customer_id := cust,
                         credited_at := some now1 }
              else x) := by
        cases hcred : st.user_credits.find?
            (fun c => c.user_id == r.referrer_user_id) with
        | some c0 =>
          rw [reward_success_existing_row now1 st referee cust r u c0 hr hu hcred]
        | none =>
          rw [reward_success_new_row now1 st referee cust r u hr hu hcred]
      have hrmem : r ∈ st.referral_records := List.mem_of_find?_eq_some hr
      have hrprop := List.find?_some hr
      simp only [Bool.and_eq_true, beq_iff_eq] at hrprop
      have hnone : (process_referral_reward now1 st referee cust).1.referral_records.find?
          (fun x => x.referee_user_id == referee && x.status == "pending") = none := by
        rw [hrecs]
        apply List.find?_eq_none.mpr
        intro x hx
        rcases List.mem_map.mp hx with ⟨a, ha, rfl⟩
        by_cases hid : a.id == r.id
        · rw [if_pos hid]
          intro hcontra
          have h2 := (Bool.and_eq_true_iff.mp hcontra).2
          dsimp only at h2
          exact absurd h2 (by decide)
        · rw [if_neg hid]
          intro hcontra
          have h1 : a.referee_user_id = referee :=
            beq_iff_eq.mp (Bool.and_eq_true_iff.mp hcontra).1
          have : a = r := huniq a ha r hrmem h1 hrprop.1
          rw [this] at hid
          simp at hid
      exact reward_no_pending now2 _ referee cust hnone

/-- Witness for C4 at the pending-referral state: the first run succeeds
and the second run is the no-op. -/
theorem c4_reward_idempotent_witness :
    refereeUnique stateReferralPending "u1"
    ∧ (process_referral_reward 5 stateReferralPending "u1" (some "cus_1")).2.processed
      = true
    ∧ process_referral_reward 6
        (process_referral_reward 5 stateReferralPending "u1" (some "cus_1")).1
        "u1" (some "cus_1")
      = ((process_referral_reward 5 stateReferralPending "u1" (some "cus_1")).1,
         { processed := false, reason := some "no_pending_referral",
           referrer_user_id := none, credit_amount := none, new_balance := none }) :=
  ⟨by decide, by decide,
   c4_reward_idempotent 5 6 stateReferralPending "u1" (some "cus_1")
     (by decide) (by decide)⟩

/-- The reward service is a pure no-op when no user row matches both the
referee and the supplied customer id. -/
theorem reward_user_not_pro (now : Nat) (st : DBState) (referee : String)
    (cust : Option String) (r : ReferralRecord)
    (hr : st.referral_records.find?
      (fun x => x.referee_user_id == referee && x.status == "pending") = some r)
    (hu : st.users.find?
      (fun x => x.user_id == referee && x.stripe_customer_id == cust) = none) :
    process_referral_reward now st referee cust
      = (st, { processed := false, reason := some "user_not_pro",
               referrer_user_id := none, credit_amount := none,
               new_balance := none }) := by
  unfold process_referral_reward
  rw [hr]
  dsimp only
  rw [hu]

/-- Binding either leaves the state unchanged (every failing check) or
appends exactly one pending record with the fixed 1.00 reward. -/
theorem bind_state_cases (now next_id : Nat) (st : DBState) (uid code : String) :
    (bind_referral_code now next_id st uid code).1 = st
    ∨ ∃ rec : ReferralRecord,
        (bind_referral_code now next_id st uid code).1
          = { st with referral_records := st.referral_records ++ [rec] }
        ∧ rec.credit_amount = bindCreditAmount
        ∧ rec.status = "pending" := by
  unfold bind_referral_code
  dsimp only
  repeat' split
  all_goals first
    | exact Or.inl rfl
    | exact Or.inr ⟨_, rfl, rfl, rfl⟩

/-- The deduction service never changes the state when the external
Stripe call fails. -/
theorem apply_credit_state_not_ok (st : DBState) (uid inv : String) (amt : Int) :
    (apply_credit_to_invoice false st uid inv amt).1 = st := by
  by_cases hav : get_available_credits st uid ≤ 0
  · unfold apply_credit_to_invoice
    dsimp only
    rw [if_pos hav]
  · unfold apply_credit_to_invoice
    dsimp only
    rw [if_neg hav]
    rfl

/-- C3: the conservation invariant total = used + available with all
three balances non-negative holds for every freshly created UserCredit
row and is preserved by every operation writing the table: binding (which
also only ever creates records with the non-negative 1.00 amount), reward
crediting (given non-negative record amounts and the primary key on
user_credits), and deduction with a non-negative invoice amount. -/
theorem c3_credit_conservation :
    (∀ (now next_id : Nat) (st : DBState) (uid code : String),
      ledgerInvariant st → recordsNonneg st →
      ledgerInvariant (bind_referral_code now next_id st uid code).1
      ∧ recordsNonneg (bind_referral_code now next_id st uid code).1)
    ∧ (∀ (now : Nat) (st : DBState) (referee : String) (cust : Option String),
      ledgerInvariant st → recordsNonneg st → creditsKeyUnique st →
      ledgerInvariant (process_referral_reward now st referee cust).1
      ∧ recordsNonneg (process_referral_reward now st referee cust).1)
    ∧ (∀ (ok : Bool) (st : DBState) (uid inv : String) (amt : Int),
      ledgerInvariant st → creditsKeyUnique st → 0 ≤ amt →
      ledgerInvariant (apply_credit_to_invoice ok st uid inv amt).1) := by
  refine ⟨?_, ?_, ?_⟩
  · -- binding
    intro now next_id st uid code hL hR
    rcases bind_state_cases now next_id st uid code with h | ⟨rec, h, hamt, -⟩
    · rw [h]; exact ⟨hL, hR⟩
    · rw [h]
      refine ⟨hL, ?_⟩
      intro r hr
      rcases List.mem_append.mp hr with hr | hr
      · exact hR r hr
      · rcases List.mem_singleton.mp hr with rfl
        rw [hamt]
        decide
  · -- reward
    intro now st referee cust hL hR huniq
    cases hr : st.referral_records.find?
        (fun x => x.referee_user_id == referee && x.status == "pending") with
    | none =>
      rw [reward_no_pending now st referee cust hr]
      exact ⟨hL, hR⟩
    | some r =>
      cases hu : st.users.find?
          (fun x => x.user_id == referee && x.stripe_customer_id == cust) with
      | none =>
        rw [reward_user_not_pro now st referee cust r hr hu]
        exact ⟨hL, hR⟩
      | some u =>
        have hamt : 0 ≤ r.credit_amount := hR r (List.mem_of_find?_eq_some hr)
        have hrecs : recordsNonneg
            { st with
              referral_records := st.referral_records.map (fun x =>
                if x.id == r.id then
                  { x with status := "completed", stripe_customer_id := cust,
                           credited_at := some now }
                else x) } := by
          intro x hx
          rcases List.mem_map.mp hx with ⟨a, ha, rfl⟩
          by_cases h : a.id == r.id
          · rw [if_pos h]; exact hR a ha
          · rw [if_neg h]; exact hR a ha
        cases hcred : st.user_credits.find?
            (fun c => c.user_id == r.referrer_user_id) with
        | some c0 =>
          rw [reward_success_existing_row now st referee cust r u c0 hr hu hcred]
          refine ⟨?_, hrecs⟩
          intro c' hc'
          rcases List.mem_map.mp hc' with ⟨c, hc, rfl⟩
          by_cases h : c.user_id == r.referrer_user_id
          · have hc0id := List.find?_some hcred
            simp only [] at hc0id
            have hceq : c = c0 := huniq c hc c0 (List.mem_of_find?_eq_some hcred)
              ((beq_iff_eq.mp h).trans (beq_iff_eq.mp hc0id).symm)
            rw [if_pos h, hceq]
            obtain ⟨ht, h0t, h0u, h0a⟩ := hL c0 (List.mem_of_find?_eq_some hcred)
            unfold creditInvariant
            dsimp only
            refine ⟨by omega, by omega, by omega, by omega⟩
          · rw [if_neg h]
            exact hL c hc
        | none =>
          rw [reward_success_new_row now st referee cust r u hr hu hcred]
          refine ⟨?_, hrecs⟩
          intro c' hc'
          rcases List.mem_append.mp hc' with hc' | hc'
          · exact hL c' hc'
          · rcases List.mem_singleton.mp hc' with rfl
            unfold creditInvariant
            dsimp only
            refine ⟨by omega, by omega, by omega, by omega⟩
  · -- deduction
    intro ok st uid inv amt hL huniq hamt
    by_cases hav : get_available_credits st uid ≤ 0
    · have h : (apply_credit_to_invoice ok st uid inv amt).1 = st := by
        unfold apply_credit_to_invoice
        rw [if_pos hav]
      rw [h]; exact hL
    · cases ok with
      | false =>
        rw [apply_credit_state_not_ok st uid inv amt]
        exact hL
      | true =>
        cases hcred : st.user_credits.find? (fun c => c.user_id == uid) with
        | none =>
          exfalso
          apply hav
          unfold get_available_credits
          rw [hcred]
        | some c0 =>
          have hpos : 0 < c0.available_credits := by
            have h0 : get_available_credits st uid = c0.available_credits := by
              unfold get_available_credits; rw [hcred]
            rw [h0] at hav
            omega
          rw [apply_credit_main st uid inv amt c0 hcred hpos]
          intro c' hc'
          rcases List.mem_map.mp hc' with ⟨c, hc, rfl⟩
          by_cases h : c.user_id == uid
          · have hc0id := List.find?_some hcred
            simp only [] at hc0id
            have hceq : c = c0 := huniq c hc c0 (List.mem_of_find?_eq_some hcred)
              ((beq_iff_eq.mp h).trans (beq_iff_eq.mp hc0id).symm)
            rw [if_pos h, hceq]
            obtain ⟨ht, h0t, h0u, h0a⟩ := hL c0 (List.mem_of_find?_eq_some hcred)
            have hd1 : min c0.available_credits amt ≤ c0.available_credits :=
              min_le_left _ _
            have hd2 : 0 ≤ min c0.available_credits amt :=
              le_min (le_of_lt hpos) hamt
            unfold creditInvariant
            dsimp only
            refine ⟨by omega, by omega, by omega, by omega⟩
          · rw [if_neg h]
            exact hL c hc

/-- Witness for C3: the three preservation facts at the concrete bind,
reward and deduction scenarios. -/
theorem c3_credit_conservation_witness :
    (ledgerInvariant (bind_referral_code 10 1 stateBindReady "u1" "AB3X7K").1
      ∧ recordsNonneg (bind_referral_code 10 1 stateBindReady "u1" "AB3X7K").1)
    ∧ (ledgerInvariant (process_referral_reward 5 stateReferralPending "u1"
          (some "cus_1")).1
      ∧ recordsNonneg (process_referral_reward 5 stateReferralPending "u1"
          (some "cus_1")).1)
    ∧ ledgerInvariant (apply_credit_to_invoice true stateCreditOne "u1" "in_1" 60).1 :=
  ⟨c3_credit_conservation.1 10 1 stateBindReady "u1" "AB3X7K" (by decide) (by decide),
   c3_credit_conservation.2.1 5 stateReferralPending "u1" (some "cus_1")
     (by decide) (by decide) (by decide),
   c3_credit_conservation.2.2 true stateCreditOne "u1" "in_1" 60
     (by decide) (by decide) (by decide)⟩

/-- C6: binding runs its checks in order — an existing record for the
referee fails with the already-bound error, an unknown normalized code
with code-not-found, an inactive code with code-inactive, an expired code
with code-expired, a code owned by the referee with self-referral, and a
referee already on a pro status with already-paid — every failure
returning the state unchanged; when no check fires and the referee
exists, exactly one pending record with credit_amount 1.00 is created. -/
theorem c6_bind_checks (now next_id : Nat) (st : DBState) (uid rawcode : String) :
    (∀ r0, st.referral_records.find? (fun r => r.referee_user_id == uid) = some r0 →
      bind_referral_code now next_id st uid rawcode
        = (st, .httpError "You have already used a referral code"))
    ∧ (st.referral_records.find? (fun r => r.referee_user_id == uid) = none →
      st.referral_codes.find?
          (fun c => c.referral_code == pyStrip (pyUpper rawcode)) = none →
      bind_referral_code now next_id st uid rawcode
        = (st, .httpError "Invalid referral code"))
    ∧ (∀ code_obj,
      st.referral_records.find? (fun r => r.referee_user_id == uid) = none →
      st.referral_codes.find?
          (fun c => c.referral_code == pyStrip (pyUpper rawcode)) = some code_obj →
      code_obj.is_active = false →
      bind_referral_code now next_id st uid rawcode
        = (st, .httpError "Referral code is inactive"))
    ∧ (∀ code_obj,
      st.referral_records.find? (fun r => r.referee_user_id == uid) = none →
      st.referral_codes.find?
          (fun c => c.referral_code == pyStrip (pyUpper rawcode)) = some code_obj →
      code_obj.is_active = true →
      (code_obj.expires_at.isSome && is_code_expired now code_obj.expires_at) = true →
      bind_referral_code now next_id st uid rawcode
        = (st, .httpError "Referral code has expired"))
    ∧ (∀ code_obj,
      st.referral_records.find? (fun r => r.referee_user_id == uid) = none →
      st.referral_codes.find?
          (fun c => c.referral_code == pyStrip (pyUpper rawcode)) = some code_obj →
      code_obj.is_active = true →
      (code_obj.expires_at.isSome && is_code_expired now code_obj.expires_at) = false →
      (code_obj.user_id == uid) = true →
      bind_referral_code now next_id st uid rawcode
        = (st, .httpError "You cannot use your own referral code"))
    ∧ (∀ code_obj user_obj,
      st.referral_records.find? (fun r => r.referee_user_id == uid) = none →
      st.referral_codes.find?
          (fun c => c.referral_code == pyStrip (pyUpper rawcode)) = some code_obj →
      code_obj.is_active = true →
      (code_obj.expires_at.isSome && is_code_expired now code_obj.expires_at) = false →
      (code_obj.user_id == uid) = false →
      st.users.find? (fun x => x.user_id == uid) = some user_obj →
      (match user_obj.subscription_status with
        | none => false
        | some s => s != "" && pyLower s == "pro") = true →
      bind_referral_code now next_id st uid rawcode
        = (st, .httpError "Cannot bind referral code after subscription"))
    ∧ (∀ code_obj user_obj,
      st.referral_records.find? (fun r => r.referee_user_id == uid) = none →
      st.referral_codes.find?
          (fun c => c.referral_code == pyStrip (pyUpper rawcode)) = some code_obj →
      code_obj.is_active = true →
      (code_obj.expires_at.isSome && is_code_expired now code_obj.expires_at) = false →
      (code_obj.user_id == uid) = false →
      st.users.find? (fun x => x.user_id == uid) = some user_obj →
      (match user_obj.subscription_status with
        | none => false
        | some s => s != "" && pyLower s == "pro") = false →
      bind_referral_code now next_id st uid rawcode
        = ({ st with
             referral_records := st.referral_records ++
               [{ id := next_id, referrer_user_id := code_obj.user_id,
                  referee_user_id := uid,
                  referral_code := pyStrip (pyUpper rawcode),
                  credit_amount := bindCreditAmount, status := "pending",
                  stripe_customer_id := none, credited_at := none }] },
           .ok "success")) := by
  refine ⟨?_, ?_, ?_, ?_, ?_, ?_, ?_⟩
  · intro r0 h1
    unfold bind_referral_code
    dsimp only
    rw [h1]
  · intro h1 h2
    unfold bind_referral_code
    dsimp only
    rw [h1]
    dsimp only
    rw [h2]
  · intro code_obj h1 h2 h3
    unfold bind_referral_code
    dsimp only
    rw [h1]
    dsimp only
    rw [h2]
    dsimp only
    rw [h3]
    rfl
  · intro code_obj h1 h2 h3 h4
    unfold bind_referral_code
    dsimp only
    rw [h1]
    dsimp only
    rw [h2]
    dsimp only
    rw [h3, h4]
    rfl
  · intro code_obj h1 h2 h3 h4 h5
    unfold bind_referral_code
    dsimp only
    rw [h1]
    dsimp only
    rw [h2]
    dsimp only
    rw [h3, h4, h5]
    rfl
  · intro code_obj user_obj h1 h2 h3 h4 h5 h6 h7
    unfold bind_referral_code
    dsimp only
    rw [h1]
    dsimp only
    rw [h2]
    dsimp only
    rw [h3, h4, h5, h6]
    dsimp only
    rw [h7]
    rfl
  · intro code_obj user_obj h1 h2 h3 h4 h5 h6 h7
    unfold bind_referral_code
    dsimp only
    rw [h1]
    dsimp only
    rw [h2]
    dsimp only
    rw [h3, h4, h5, h6]
    dsimp only
    rw [h7]
    rfl

/-- Witness for C6: the successful bind of code ab3x7k at the ready
state, and the already-bound rejection at the pending-record state. -/
theorem c6_bind_checks_witness :
    bind_referral_code 10 1 stateBindReady "u1" "ab3x7k"
      = ({ stateBindReady with
           referral_records :=
             [{ id := 1, referrer_user_id := "r1", referee_user_id := "u1",
                referral_code := "AB3X7K", credit_amount := bindCreditAmount,
                status := "pending", stripe_customer_id := none,
                credited_at := none }] },
         .ok "success")
    ∧ bind_referral_code 10 2 stateReferralPending "u1" "AB3X7K"
      = (stateReferralPending, .httpError "You have already used a referral code") := by
  have hsucc := (c6_bind_checks 10 1 stateBindReady "u1" "ab3x7k").2.2.2.2.2.2
    { user_id := "r1", referral_code := "AB3X7K", is_active := true,
      expires_at := none }
    { user_id := "u1", subscription_status := some "free",
      stripe_customer_id := none, apple_customer_id := none }
    (by decide) (by decide) (by decide) (by decide) (by decide) (by decide) (by decide)
  have hbound := (c6_bind_checks 10 2 stateReferralPending "u1" "AB3X7K").1
    samplePendingRecord (by decide)
  exact ⟨hsucc.trans (by decide), hbound⟩

end AccountCenter
